import Mathlib

/-!
# Verification of the particle-portrait viewer (`src/script.js`)

Shallow embedding of the procedural particle-field engine:
shape generation (sphere and grid position tables), the morph state
machine, the video-to-particle sampling pipeline, face tracking decay,
the resize camera adjustment, and theme lookup.  JavaScript numbers are
modelled as rationals (`ℚ`) except where the source uses trigonometric
functions (`Math.sin`/`Math.cos`/`Math.acos`/`Math.sqrt`), which are
modelled over the reals (`ℝ`).
-/

namespace Viewer

/-- Embeds `const gridCols = 160` from `script.js`. -/
def gridCols : ℕ := 160

/-- Embeds `const gridRows = 125` from `script.js`. -/
def gridRows : ℕ := 125

/-- Embeds `const particleCount = gridCols * gridRows` from `script.js`. -/
def particleCount : ℕ := gridCols * gridRows

/-- Embeds `const width = 32` — grid width in 3D space (`calculatePositions`). -/
def gridWidth : ℚ := 32

/-- Embeds `const height = 25` — grid height in 3D space (`calculatePositions`). -/
def gridHeight : ℚ := 25

/-- Grid x coordinate from `calculatePositions`:
`col = i % gridCols; u = col / gridCols; gridPositions[i*3] = (u - 0.5) * width`. -/
def gridX (i : ℕ) : ℚ := (((i % gridCols : ℕ) : ℚ) / (gridCols : ℚ) - 0.5) * gridWidth

/-- Grid y coordinate from `calculatePositions`:
`row = Math.floor(i / gridCols); v = row / gridRows;
gridPositions[i*3+1] = -(v - 0.5) * height`. -/
def gridY (i : ℕ) : ℚ := -((((i / gridCols : ℕ) : ℚ) / (gridRows : ℚ)) - 0.5) * gridHeight

/-- Grid z coordinate from `calculatePositions`: `gridPositions[i*3+2] = 0`. -/
def gridZ (_i : ℕ) : ℚ := 0

/-- Luma brightness from `updateParticlesFromVideo`:
`0.299 * r + 0.587 * g + 0.114 * b`, in exact rational arithmetic. -/
def brightness (r g b : ℚ) : ℚ := 0.299 * r + 0.587 * g + 0.114 * b

/-- Round a rational to the nearest integer, ties to even (the IEEE-754
default rounding of the significand). -/
def roundHalfEven (m : ℚ) : ℤ :=
  if m - ⌊m⌋ < 1 / 2 then ⌊m⌋
  else if 1 / 2 < m - ⌊m⌋ then ⌊m⌋ + 1
  else if ⌊m⌋ % 2 = 0 then ⌊m⌋ else ⌊m⌋ + 1

/-- Modelled IEEE-754 binary64 rounding (round to nearest, ties to even,
53-bit significand) of an exact rational, for normal-range magnitudes:
the rounding JavaScript applies to every numeric literal and to the
result of every arithmetic operation.  Subnormal/overflow handling is
omitted as all values arising here are normal. -/
def fl (x : ℚ) : ℚ :=
  if x = 0 then 0
  else
    let e := Int.log 2 |x|
    let m := |x| * 2 ^ ((52 : ℤ) - e)
    (if 0 < x then 1 else -1) * (roundHalfEven m : ℚ) * 2 ^ (e - (52 : ℤ))

/-- The luma expression `0.299 * r + 0.587 * g + 0.114 * b` as the
program's IEEE binary64 arithmetic evaluates it: each decimal literal is
rounded to a double, and each product and (left-associated) sum is
rounded after it is formed. -/
def brightnessFloat (r g b : ℚ) : ℚ :=
  fl (fl (fl (fl 0.299 * r) + fl (fl 0.587 * g)) + fl (fl 0.114 * b))

lemma log2_eq_of_bounds (x : ℚ) (e : ℤ) (hx : 0 < x) (h1 : (2:ℚ) ^ e ≤ x)
    (h2 : x < (2:ℚ) ^ (e + 1)) : Int.log 2 x = e := by
  have hle : e ≤ Int.log 2 x :=
    (Int.zpow_le_iff_le_log (by norm_num) hx).mp (by exact_mod_cast h1)
  have hlt : Int.log 2 x < e + 1 :=
    (Int.lt_zpow_iff_log_lt (by norm_num) hx).mp (by exact_mod_cast h2)
  omega

lemma fl_pos_eval (x : ℚ) (e : ℤ) (hx : 0 < x) (h1 : (2:ℚ) ^ e ≤ x)
    (h2 : x < (2:ℚ) ^ (e + 1)) :
    fl x = (roundHalfEven (x * 2 ^ ((52:ℤ) - e)) : ℚ) * 2 ^ (e - (52:ℤ)) := by
  unfold fl
  rw [if_neg (ne_of_gt hx)]
  simp only [abs_of_pos hx, if_pos hx, one_mul]
  rw [log2_eq_of_bounds x e hx h1 h2]

lemma fl_zero : fl 0 = 0 := by unfold fl; simp

lemma fl_d299 : fl 0.299 = 5386305154335113 / 2 ^ 54 := by
  rw [show (0.299:ℚ) = 299/1000 by norm_num]
  rw [fl_pos_eval (299/1000) (-2) (by norm_num) (by norm_num) (by norm_num)]
  norm_num [roundHalfEven]

lemma fl_d587 : fl 0.587 = 2643612981266481 / 2 ^ 52 := by
  rw [show (0.587:ℚ) = 587/1000 by norm_num]
  rw [fl_pos_eval (587/1000) (-1) (by norm_num) (by norm_num) (by norm_num)]
  norm_num [roundHalfEven]

lemma fl_d114 : fl 0.114 = 8214565720323785 / 2 ^ 56 := by
  rw [show (0.114:ℚ) = 114/1000 by norm_num]
  rw [fl_pos_eval (114/1000) (-4) (by norm_num) (by norm_num) (by norm_num)]
  norm_num [roundHalfEven]

lemma fl_a : fl (5386305154335113 / 2 ^ 54) = 5386305154335113 / 2 ^ 54 := by
  rw [fl_pos_eval _ (-2) (by norm_num) (by norm_num) (by norm_num)]
  norm_num [roundHalfEven]

lemma fl_b : fl (2643612981266481 / 2 ^ 52) = 2643612981266481 / 2 ^ 52 := by
  rw [fl_pos_eval _ (-1) (by norm_num) (by norm_num) (by norm_num)]
  norm_num [roundHalfEven]

lemma fl_c : fl (8214565720323785 / 2 ^ 56) = 8214565720323785 / 2 ^ 56 := by
  rw [fl_pos_eval _ (-4) (by norm_num) (by norm_num) (by norm_num)]
  norm_num [roundHalfEven]

lemma fl_s1 : fl (5386305154335113 / 2 ^ 54 + 2643612981266481 / 2 ^ 52) =
    3990189269850259 / 2 ^ 52 := by
  rw [fl_pos_eval _ (-1) (by norm_num) (by norm_num) (by norm_num)]
  norm_num [roundHalfEven]

lemma fl_s2 : fl (3990189269850259 / 2 ^ 52 + 8214565720323785 / 2 ^ 56) =
    9007199254740991 / 2 ^ 53 := by
  rw [fl_pos_eval _ (-1) (by norm_num) (by norm_num) (by norm_num)]
  norm_num [roundHalfEven]

lemma brightnessFloat_white : brightnessFloat 1 1 1 = 9007199254740991 / 2 ^ 53 := by
  unfold brightnessFloat
  rw [mul_one, mul_one, mul_one, fl_d299, fl_d587, fl_d114, fl_a, fl_b, fl_c, fl_s1, fl_s2]

lemma brightnessFloat_black : brightnessFloat 0 0 0 = 0 := by
  unfold brightnessFloat
  rw [mul_zero, mul_zero, mul_zero]
  simp [fl_zero]

lemma gridX_eq (i : ℕ) : gridX i = ((i % 160 : ℕ) : ℚ) / 5 - 16 := by
  unfold gridX gridCols gridWidth
  ring

lemma gridY_eq (i : ℕ) : gridY i = 25 / 2 - ((i / 160 : ℕ) : ℚ) / 5 := by
  unfold gridY gridCols gridRows gridHeight
  ring

lemma col_le (i : ℕ) : ((i % 160 : ℕ) : ℚ) ≤ 159 := by
  have h : i % 160 < 160 := Nat.mod_lt _ (by norm_num)
  exact_mod_cast Nat.le_of_lt_succ h

lemma row_le (i : ℕ) (h : i < particleCount) : ((i / 160 : ℕ) : ℚ) ≤ 124 := by
  have h2 : i / 160 < 125 := by
    rw [Nat.div_lt_iff_lt_mul (by norm_num : (0:ℕ) < 160)]
    simpa [particleCount, gridCols, gridRows, Nat.mul_comm] using h
  exact_mod_cast Nat.le_of_lt_succ h2

/-- Embeds `const phi = Math.acos(-1 + (2 * i) / particleCount)` from `calculatePositions`. -/
noncomputable def spherePhi (i : ℕ) : ℝ :=
  Real.arccos (-1 + (2 * (i : ℝ)) / (particleCount : ℝ))

/-- Embeds `const theta = Math.sqrt(particleCount * Math.PI) * phi` from `calculatePositions`. -/
noncomputable def sphereTheta (i : ℕ) : ℝ :=
  Real.sqrt ((particleCount : ℝ) * Real.pi) * spherePhi i

/-- Sphere radius `const r = 12` in `calculatePositions`. -/
def sphereRadius : ℝ := 12

/-- Embeds `spherePositions[i*3] = r * Math.cos(theta) * Math.sin(phi)`. -/
noncomputable def sphereX (i : ℕ) : ℝ :=
  sphereRadius * Real.cos (sphereTheta i) * Real.sin (spherePhi i)

/-- Embeds `spherePositions[i*3+1] = r * Math.sin(theta) * Math.sin(phi)`. -/
noncomputable def sphereY (i : ℕ) : ℝ :=
  sphereRadius * Real.sin (sphereTheta i) * Real.sin (spherePhi i)

/-- Embeds `spherePositions[i*3+2] = r * Math.cos(phi)`. -/
noncomputable def sphereZ (i : ℕ) : ℝ :=
  sphereRadius * Real.cos (spherePhi i)

/-- Euclidean norm of the `i`-th sphere-table point. -/
noncomputable def sphereNorm (i : ℕ) : ℝ :=
  Real.sqrt (sphereX i ^ 2 + sphereY i ^ 2 + sphereZ i ^ 2)

/-- Morph write for the x coordinate, from the `onUpdate` callback of
`triggerMorphSequence`:
`positions[i3] = spherePositions[i3] + (gridPositions[i3] - spherePositions[i3]) * animObj.t`. -/
noncomputable def morphX (i : ℕ) (t : ℝ) : ℝ :=
  sphereX i + ((gridX i : ℝ) - sphereX i) * t

/-- Morph write for the y coordinate (`positions[i3+1]` in `triggerMorphSequence`). -/
noncomputable def morphY (i : ℕ) (t : ℝ) : ℝ :=
  sphereY i + ((gridY i : ℝ) - sphereY i) * t

/-- Morph write for the z coordinate (`positions[i3+2]` in `triggerMorphSequence`). -/
noncomputable def morphZ (i : ℕ) (t : ℝ) : ℝ :=
  sphereZ i + ((gridZ i : ℝ) - sphereZ i) * t

/-- A theme entry `{ h, s, l }` from the `themes` object literal. -/
structure Theme where
  h : ℚ
  s : ℚ
  l : ℚ
deriving DecidableEq, Repr

/-- The JavaScript property lookup `themes[name]`: the `themes` object has
exactly the five keys `cosmic`, `neon`, `sunset`, `ocean`, `matrix`; any
other key yields `undefined`, modelled as `none`. -/
def themesLookup (name : String) : Option Theme :=
  if name = "cosmic" then some ⟨0.6, 0.7, 0.5⟩
  else if name = "neon" then some ⟨0.4, 1.0, 0.5⟩
  else if name = "sunset" then some ⟨0.05, 0.9, 0.5⟩
  else if name = "ocean" then some ⟨0.55, 0.8, 0.5⟩
  else if name = "matrix" then some ⟨0.33, 1.0, 0.5⟩
  else none

/-- The five keys of the `themes` object literal. -/
def themeKeys : List String := ["cosmic", "neon", "sunset", "ocean", "matrix"]

/-- The five theme entries of the `themes` object literal, in key order. -/
def themeValues : List Theme :=
  [⟨0.6, 0.7, 0.5⟩, ⟨0.4, 1.0, 0.5⟩, ⟨0.05, 0.9, 0.5⟩, ⟨0.55, 0.8, 0.5⟩, ⟨0.33, 1.0, 0.5⟩]

/-- Embeds `changeTheme`'s effect on the module global: `currentTheme = themes[name]`
(DOM class/gradient updates are excluded UI glue). -/
def changeTheme (name : String) (_cur : Option Theme) : Option Theme := themesLookup name

/-- Clamp to `[0,1]`, as used for saturation/lightness in three.js
`Color.setHSL`, which the code calls via `new THREE.Color().setHSL(...)`. -/
def clamp01 (x : ℚ) : ℚ := min (max x 0) 1

/-- Embeds `euclideanModulo(h, 1)` from three.js `Color.setHSL`: the fractional
part of `h` (nonnegative representative). -/
def euclidMod1 (h : ℚ) : ℚ := h - ⌊h⌋

/-- Embeds the `hue2rgb` helper of three.js `Color.setHSL`, embedded verbatim from the
library source the code links against. -/
def hue2rgb (p q t : ℚ) : ℚ :=
  let t1 := if t < 0 then t + 1 else t
  let t2 := if t1 > 1 then t1 - 1 else t1
  if t2 < 1 / 6 then p + (q - p) * 6 * t2
  else if t2 < 1 / 2 then q
  else if t2 < 2 / 3 then p + (q - p) * 6 * (2 / 3 - t2)
  else p

/-- three.js `Color.setHSL(h, s, l)`, returning the resulting `(r, g, b)`:
the HSL→RGB conversion applied to the current theme on every sampler tick
(`new THREE.Color().setHSL(currentTheme.h, currentTheme.s, currentTheme.l)`). -/
def setHSL (h s l : ℚ) : ℚ × ℚ × ℚ :=
  let h1 := euclidMod1 h
  let s1 := clamp01 s
  let l1 := clamp01 l
  if s1 = 0 then (l1, l1, l1)
  else
    let p := if l1 ≤ 0.5 then l1 * (1 + s1) else l1 + s1 - l1 * s1
    let q := 2 * l1 - p
    (hue2rgb q p (h1 + 1 / 3), hue2rgb q p h1, hue2rgb q p (h1 - 1 / 3))

/-- The mutable per-particle buffers owned by the geometry:
`positions` and `colors` as maps from particle index to a triple. -/
structure ParticleState where
  positions : ℕ → ℚ × ℚ × ℚ
  colors : ℕ → ℚ × ℚ × ℚ

/-- The loop body of `updateParticlesFromVideo` applied to every particle
index: per-index luma, z-depth smoothing
(`positions[i3+2] += (targetZ - positions[i3+2]) * 0.15` with
`targetZ = brightness * 8.0 - 2.0`) and the theme/brightness color blend
(`colors[i3] = themeColor.r * brightness + r * 0.2`, likewise g and b). -/
def samplerApply (th : Theme) (frame : ℕ → ℚ × ℚ × ℚ) (st : ParticleState) : ParticleState :=
  let c := setHSL th.h th.s th.l
  { positions := fun i =>
      if i < particleCount then
        let px := frame i
        let br := brightness px.1 px.2.1 px.2.2
        let targetZ := br * 8.0 - 2.0
        let p := st.positions i
        (p.1, p.2.1, p.2.2 + (targetZ - p.2.2) * 0.15)
      else st.positions i
    colors := fun i =>
      if i < particleCount then
        let px := frame i
        let br := brightness px.1 px.2.1 px.2.2
        (c.1 * br + px.1 * 0.2, c.2.1 * br + px.2.1 * 0.2, c.2.2 * br + px.2.2 * 0.2)
      else st.colors i }

/-- Embeds `updateParticlesFromVideo`: the guard
`if (!video || video.readyState !== 4) return;` makes the tick a no-op
unless a video element exists and has a frame ready; with an `undefined`
`currentTheme` the body's read `currentTheme.h` throws (`Except.error`);
otherwise the per-particle loop runs. `frame` holds the downsampled pixel
channels already divided by 255. -/
def updateParticlesFromVideo (video : Bool) (readyState : ℕ) (theme : Option Theme)
    (frame : ℕ → ℚ × ℚ × ℚ) (st : ParticleState) : Except Unit ParticleState :=
  if video = false ∨ readyState ≠ 4 then Except.ok st
  else
    match theme with
    | none => Except.error ()
    | some th => Except.ok (samplerApply th frame st)

/-- An all-zero buffer state, used as a concrete test state. -/
def zeroState : ParticleState :=
  ⟨fun _ => (0, 0, 0), fun _ => (0, 0, 0)⟩

/-- Embeds `adjustCamera`'s choice of `camera.position.z` as a function of the
viewport aspect ratio: `40` if `aspect < 0.7`, else `35` if `aspect < 1`,
else `25`. -/
def adjustCameraDistance (aspect : ℚ) : ℚ :=
  if aspect < 0.7 then 40 else if aspect < 1 then 35 else 25

/-- Modelled from the spec (§4.5 CameraFitter, not present in
`src/script.js`): `fitDistance × marginFactor` with
`fitDistance = min(worldHeight/(2·tan(fov/2)), worldWidth/(2·tan(fov/2)·aspect))`,
`marginFactor = 0.9`, `worldWidth = 64`, `worldHeight = 50`; `tanHalfFov`
stands for `tan(fov/2)`. -/
noncomputable def specCoverDistance (tanHalfFov aspect : ℝ) : ℝ :=
  0.9 * min (50 / (2 * tanHalfFov)) (64 / (2 * tanHalfFov * aspect))

/-- A face bounding box as returned by the detector:
`topLeft = (left, top)`, `bottomRight = (right, bottom)`. -/
structure FaceBox where
  left : ℚ
  top : ℚ
  right : ℚ
  bottom : ℚ

/-- One tick of `detectFace` on the rotation targets
`(targetRotationX, targetRotationY)`: with a prediction, recompute the
targets from the normalized face center; with none, decay both by `0.95`. -/
def detectFaceStep (pred : Option FaceBox) (videoW videoH : ℚ) (t : ℚ × ℚ) : ℚ × ℚ :=
  match pred with
  | some box =>
      let sizeX := box.right - box.left
      let sizeY := box.bottom - box.top
      let faceX := (box.left + sizeX / 2) / videoW
      let faceY := (box.top + sizeY / 2) / videoH
      ((faceY - 0.5) * 0.5, (faceX - 0.5) * 1.0)
  | none => (t.1 * 0.95, t.2 * 0.95)

/-- The `currentState` global: `'sphere' -> 'morphing' -> 'face'`. -/
inductive AnimState where
  | sphere
  | morphing
  | face
deriving DecidableEq, Fintype, Repr

/-- Numeric rank of a state in the intended progression order. -/
def AnimState.rank : AnimState → ℕ
  | .sphere => 0
  | .morphing => 1
  | .face => 2

/-- The asynchronous events that touch `currentState` or its triggers:
`setupSuccess` is the success path of `setupWebcam` (stream acquired and
`blazeface.load()` resolved, which also schedules the one
`setTimeout(triggerMorphSequence, 2000)`); `morphFire` is that timeout
firing (`triggerMorphSequence` sets `currentState = 'morphing'` and starts
the GSAP tween); `tweenComplete` is the tween's `onComplete`
(`currentState = 'face'`). -/
inductive SysEvent where
  | setupSuccess
  | morphFire
  | tweenComplete
deriving DecidableEq, Fintype, Repr

/-- The state relevant to the morph sequence: the `currentState` enum plus
the implicit control flags of the source (`ready`: camera stream and
detector both loaded; `morphScheduled`: the timeout is pending;
`tweenActive`: the GSAP tween is running; `tweenDone`: `onComplete` has
fired; `setupDone`: `setupWebcam` already completed once). -/
structure SysConfig where
  state : AnimState
  ready : Bool
  morphScheduled : Bool
  tweenActive : Bool
  tweenDone : Bool
  setupDone : Bool
deriving DecidableEq, Fintype, Repr

/-- Startup configuration: `currentState = 'sphere'`, nothing ready. -/
def initConfig : SysConfig :=
  { state := .sphere, ready := false, morphScheduled := false,
    tweenActive := false, tweenDone := false, setupDone := false }

/-- One event step. An event whose enabling flag is down is a no-op:
`init` runs `setupWebcam` once, the timeout scheduled by it fires once,
and the tween's `onComplete` fires only while the tween it belongs to is
active. -/
def sysStep (c : SysConfig) : SysEvent → SysConfig
  | .setupSuccess =>
      if c.setupDone then c
      else { c with ready := true, morphScheduled := true, setupDone := true }
  | .morphFire =>
      if c.morphScheduled then
        { c with state := .morphing, morphScheduled := false, tweenActive := true }
      else c
  | .tweenComplete =>
      if c.tweenActive then
        { c with state := .face, tweenActive := false, tweenDone := true }
      else c

/-- Run a sequence of events from startup. -/
def sysRun (es : List SysEvent) : SysConfig := es.foldl sysStep initConfig

/-- Reachability invariant of the morph sequence: the timeout is only
pending while still in `sphere` with the system ready; the tween only runs
in `morphing`; `morphing`/`face` imply the system was ready, and `face`
implies the tween completed. -/
def SysInv (c : SysConfig) : Prop :=
  (c.setupDone = false → c.state = .sphere ∧ c.morphScheduled = false ∧ c.tweenActive = false) ∧
  (c.morphScheduled = true → c.ready = true ∧ c.state = .sphere) ∧
  (c.tweenActive = true → c.ready = true ∧ c.state = .morphing) ∧
  (c.state = .morphing → c.ready = true) ∧
  (c.state = .face → c.ready = true ∧ c.tweenDone = true)

instance (c : SysConfig) : Decidable (SysInv c) := by
  unfold SysInv
  infer_instance

lemma sysInv_init : SysInv initConfig := by decide

lemma sysInv_step (c : SysConfig) (e : SysEvent) (h : SysInv c) : SysInv (sysStep c e) := by
  revert h
  revert c e
  decide

lemma sysStep_rank (c : SysConfig) (e : SysEvent) (h : SysInv c) :
    c.state.rank ≤ (sysStep c e).state.rank := by
  revert h
  revert c e
  decide

lemma sysInv_foldl (c : SysConfig) (es : List SysEvent) (h : SysInv c) :
    SysInv (es.foldl sysStep c) := by
  induction es generalizing c with
  | nil => exact h
  | cons e es ih => exact ih _ (sysInv_step c e h)

lemma sysInv_run (es : List SysEvent) : SysInv (sysRun es) :=
  sysInv_foldl _ _ sysInv_init

lemma sysRank_foldl (c : SysConfig) (es : List SysEvent) (h : SysInv c) :
    c.state.rank ≤ (es.foldl sysStep c).state.rank := by
  induction es generalizing c with
  | nil => exact le_refl _
  | cons e es ih =>
      exact le_trans (sysStep_rank c e h) (ih _ (sysInv_step c e h))

lemma sysRun_append_rank (es more : List SysEvent) :
    (sysRun es).state.rank ≤ (sysRun (es ++ more)).state.rank := by
  unfold sysRun
  rw [List.foldl_append]
  exact sysRank_foldl _ _ (sysInv_run es)

lemma brightness_mem01 (r g b : ℚ) (hr0 : 0 ≤ r) (hr1 : r ≤ 1) (hg0 : 0 ≤ g) (hg1 : g ≤ 1)
    (hb0 : 0 ≤ b) (hb1 : b ≤ 1) : 0 ≤ brightness r g b ∧ brightness r g b ≤ 1 := by
  unfold brightness
  constructor <;> nlinarith

/-- C8 fails in the arithmetic it names: evaluated in the program's IEEE
binary64 floating point (literals, products and sums each rounded to
nearest, ties to even), `0.299*1 + 0.587*1 + 0.114*1` is exactly
`1 − 2⁻⁵³` (the double printed `0.9999999999999999`), not `1`. -/
theorem brightnessFloat_white_ne_one :
    brightnessFloat 1 1 1 = 1 - (2:ℚ) ^ (-53 : ℤ) ∧ brightnessFloat 1 1 1 ≠ 1 := by
  rw [brightnessFloat_white]
  norm_num

/-- C8 amended: for all `r, g, b ∈ [0,1]` the luma `0.299·r + 0.587·g +
0.114·b` lies in `[0,1]` (exact-arithmetic model, where the coefficients
sum to one so the white value is `1` and the black value `0`); in the
program's binary64 arithmetic the white value is not `1` but exactly
`1 − 2⁻⁵³`, in particular within `2⁻⁵²` of `1`, and the black value is
exactly `0`. -/
theorem brightness_range_float (r g b : ℚ) (hr0 : 0 ≤ r) (hr1 : r ≤ 1) (hg0 : 0 ≤ g)
    (hg1 : g ≤ 1) (hb0 : 0 ≤ b) (hb1 : b ≤ 1) :
    (0 ≤ brightness r g b ∧ brightness r g b ≤ 1) ∧
    (brightness 1 1 1 = 1 ∧ brightness 0 0 0 = 0) ∧
    brightnessFloat 1 1 1 = 1 - (2:ℚ) ^ (-53 : ℤ) ∧
    |brightnessFloat 1 1 1 - 1| ≤ (2:ℚ) ^ (-52 : ℤ) ∧
    brightnessFloat 0 0 0 = 0 := by
  refine ⟨brightness_mem01 r g b hr0 hr1 hg0 hg1 hb0 hb1,
    ⟨by unfold brightness; norm_num, by unfold brightness; norm_num⟩, ?_, ?_,
    brightnessFloat_black⟩ <;> rw [brightnessFloat_white]
  · norm_num
  · rw [show |(9007199254740991 / 2 ^ 53 : ℚ) - 1| = 1 / 2 ^ 53 by
      rw [abs_sub_comm]
      rw [abs_of_nonneg (by norm_num)]
      norm_num]
    norm_num

/-- Witness for C8's amended statement at `(r, g, b) = (1, 1/2, 0)`. -/
theorem brightness_range_float_witness :
    (0 ≤ brightness 1 (1/2) 0 ∧ brightness 1 (1/2) 0 ≤ 1) ∧
    (brightness 1 1 1 = 1 ∧ brightness 0 0 0 = 0) ∧
    brightnessFloat 1 1 1 = 1 - (2:ℚ) ^ (-53 : ℤ) ∧
    |brightnessFloat 1 1 1 - 1| ≤ (2:ℚ) ^ (-52 : ℤ) ∧
    brightnessFloat 0 0 0 = 0 :=
  brightness_range_float 1 (1/2) 0 (by norm_num) (by norm_num) (by norm_num) (by norm_num)
    (by norm_num) (by norm_num)

/-- C9: with no detection, `k` ticks of `detectFace` scale both rotation
targets by exactly `0.95^k = (19/20)^k`, a geometric decay toward `(0, 0)`. -/
theorem faceTracker_decay_geometric (videoW videoH : ℚ) (k : ℕ) (t0 : ℚ × ℚ) :
    (fun t => detectFaceStep none videoW videoH t)^[k] t0 =
      (t0.1 * (19 / 20) ^ k, t0.2 * (19 / 20) ^ k) := by
  induction k with
  | zero => simp
  | succ n ih =>
      rw [Function.iterate_succ_apply', ih]
      unfold detectFaceStep
      rw [Prod.mk.injEq]
      constructor <;> · rw [pow_succ]; norm_num; ring

/-- C4: the morph's `onUpdate` write is the elementwise lerp
`sphere + (grid − sphere)·t`; at `t = 0` it returns the sphere table value
exactly and at `t = 1` the grid table value exactly, in each coordinate. -/
theorem morph_lerp_endpoints (i : ℕ) (t : ℝ) :
    (morphX i t = sphereX i + ((gridX i : ℝ) - sphereX i) * t ∧
     morphY i t = sphereY i + ((gridY i : ℝ) - sphereY i) * t ∧
     morphZ i t = sphereZ i + ((gridZ i : ℝ) - sphereZ i) * t) ∧
    (morphX i 0 = sphereX i ∧ morphY i 0 = sphereY i ∧ morphZ i 0 = sphereZ i) ∧
    (morphX i 1 = (gridX i : ℝ) ∧ morphY i 1 = (gridY i : ℝ) ∧ morphZ i 1 = (gridZ i : ℝ)) := by
  refine ⟨⟨rfl, rfl, rfl⟩, ⟨?_, ?_, ?_⟩, ⟨?_, ?_, ?_⟩⟩ <;>
    · simp only [morphX, morphY, morphZ]
      ring

/-- C6: every sphere-table point has Euclidean norm exactly `12` (the
radius), in particular within the `1e-4` tolerance; the table is a pure
function of the index, hence deterministic given `N`. -/
theorem sphereTable_on_sphere (i : ℕ) :
    sphereNorm i = 12 ∧ |sphereNorm i - 12| ≤ 1 / 10000 := by
  have hsq : sphereX i ^ 2 + sphereY i ^ 2 + sphereZ i ^ 2 = 144 := by
    have h1 : Real.cos (sphereTheta i) ^ 2 + Real.sin (sphereTheta i) ^ 2 = 1 :=
      Real.cos_sq_add_sin_sq _
    have h2 : Real.sin (spherePhi i) ^ 2 + Real.cos (spherePhi i) ^ 2 = 1 :=
      Real.sin_sq_add_cos_sq _
    unfold sphereX sphereY sphereZ sphereRadius
    linear_combination (144 * Real.sin (spherePhi i) ^ 2) * h1 + 144 * h2
  have hnorm : sphereNorm i = 12 := by
    unfold sphereNorm
    rw [hsq, show (144 : ℝ) = 12 ^ 2 by norm_num]
    exact Real.sqrt_sq (by norm_num)
  exact ⟨hnorm, by rw [hnorm]; norm_num⟩

/-- C7: when the video element is missing or has no frame ready
(`readyState ≠ 4`), a sampler tick returns immediately with the particle
buffers unchanged and raises no error. -/
theorem sampler_noop_when_not_ready (video : Bool) (readyState : ℕ) (theme : Option Theme)
    (frame : ℕ → ℚ × ℚ × ℚ) (st : ParticleState)
    (h : video = false ∨ readyState ≠ 4) :
    updateParticlesFromVideo video readyState theme frame st = Except.ok st := by
  unfold updateParticlesFromVideo
  rw [if_pos h]

/-- Witness for C7: a present video whose `readyState` is `0`. -/
theorem sampler_noop_when_not_ready_witness :
    updateParticlesFromVideo true 0 none (fun _ => (0, 0, 0)) zeroState = Except.ok zeroState :=
  sampler_noop_when_not_ready true 0 none (fun _ => (0, 0, 0)) zeroState (Or.inr (by decide))

/-- C5: along every event trace from startup, the state rank
(`sphere = 0 < morphing = 1 < face = 2`) never decreases; `morphing`
implies the camera and detector were ready; `face` additionally implies
the tween completed; once the state leaves `sphere` it never returns, and
`face` is absorbing — so each transition occurs at most once and only
after its trigger preconditions. -/
theorem animState_monotone_invariants (es more : List SysEvent) :
    (sysRun es).state.rank ≤ (sysRun (es ++ more)).state.rank ∧
    ((sysRun es).state = .morphing → (sysRun es).ready = true) ∧
    ((sysRun es).state = .face → (sysRun es).ready = true ∧ (sysRun es).tweenDone = true) ∧
    ((sysRun es).state ≠ .sphere → (sysRun (es ++ more)).state ≠ .sphere) ∧
    ((sysRun es).state = .face → (sysRun (es ++ more)).state = .face) := by
  have hrank := sysRun_append_rank es more
  have hinv := sysInv_run es
  refine ⟨hrank, hinv.2.2.2.1, hinv.2.2.2.2, ?_, ?_⟩
  · intro h hcontra
    have h1 : 1 ≤ (sysRun es).state.rank := by
      cases hst : (sysRun es).state <;> simp_all [AnimState.rank]
    rw [hcontra] at hrank
    exact absurd (le_trans h1 hrank) (by decide)
  · intro h
    rw [h] at hrank
    cases hst : (sysRun (es ++ more)).state <;> simp_all [AnimState.rank]

/-- Witness for C5 at the trace `setupSuccess; morphFire`, extended by
`tweenComplete`. -/
theorem animState_monotone_invariants_witness :
    (sysRun [SysEvent.setupSuccess, SysEvent.morphFire]).ready = true ∧
    (sysRun ([SysEvent.setupSuccess, SysEvent.morphFire] ++ [SysEvent.tweenComplete])).state ≠
      AnimState.sphere :=
  ⟨(animState_monotone_invariants [SysEvent.setupSuccess, SysEvent.morphFire]
      [SysEvent.tweenComplete]).2.1 (by decide),
   (animState_monotone_invariants [SysEvent.setupSuccess, SysEvent.morphFire]
      [SysEvent.tweenComplete]).2.2.2.1 (by decide)⟩

/-- C2 fails at the positive edges: no grid-table x value ever reaches
`+width/2 = 16` (the maximum is `width/2 − width/cols = 15.8`), so the
maximum x is not `width/2` as claimed; dually for the minimum y. -/
theorem gridTable_max_x_below_halfWidth :
    (∀ i, i < particleCount → gridX i < gridWidth / 2) ∧
    (∀ i, i < particleCount → -(gridHeight / 2) < gridY i) ∧
    gridWidth / 2 = 16 ∧ gridHeight / 2 = 25 / 2 := by
  refine ⟨?_, ?_, by norm_num [gridWidth], by norm_num [gridHeight]⟩
  · intro i _
    have h := col_le i
    rw [gridX_eq]
    norm_num [gridWidth]
    linarith
  · intro i hi
    have h := row_le i hi
    rw [gridY_eq]
    norm_num [gridHeight]
    linarith

/-- C2 amended: the grid table spans exactly
`[−width/2, width/2 − width/cols] × [−height/2 + height/rows, height/2]`,
each bound attained, and every z is `0` at generation time. -/
theorem gridTable_bounds (i : ℕ) (h : i < particleCount) :
    (-(gridWidth / 2) ≤ gridX i ∧ gridX i ≤ gridWidth / 2 - gridWidth / (gridCols : ℚ)) ∧
    (-(gridHeight / 2) + gridHeight / (gridRows : ℚ) ≤ gridY i ∧ gridY i ≤ gridHeight / 2) ∧
    gridZ i = 0 ∧
    gridX 0 = -(gridWidth / 2) ∧
    gridX 159 = gridWidth / 2 - gridWidth / (gridCols : ℚ) ∧
    gridY 0 = gridHeight / 2 ∧
    gridY 19840 = -(gridHeight / 2) + gridHeight / (gridRows : ℚ) := by
  have hcol := col_le i
  have hcol0 : (0 : ℚ) ≤ ((i % 160 : ℕ) : ℚ) := Nat.cast_nonneg _
  have hrow := row_le i h
  have hrow0 : (0 : ℚ) ≤ ((i / 160 : ℕ) : ℚ) := Nat.cast_nonneg _
  refine ⟨⟨?_, ?_⟩, ⟨?_, ?_⟩, rfl, ?_, ?_, ?_, ?_⟩
  · rw [gridX_eq]; norm_num [gridWidth]; linarith
  · rw [gridX_eq]; norm_num [gridWidth, gridCols]; linarith
  · rw [gridY_eq]; norm_num [gridHeight, gridRows]; linarith
  · rw [gridY_eq]; norm_num [gridHeight]; linarith
  · norm_num [gridX_eq, gridWidth]
  · norm_num [gridX_eq, gridWidth, gridCols]
  · norm_num [gridY_eq, gridHeight]
  · norm_num [gridY_eq, gridHeight, gridRows]

/-- Witness for C2's amended bounds at index `i = 77`. -/
theorem gridTable_bounds_witness :
    -(gridWidth / 2) ≤ gridX 77 ∧ gridX 77 ≤ gridWidth / 2 - gridWidth / (gridCols : ℚ) :=
  (gridTable_bounds 77 (by decide)).1

/-- C1 fails: no positive value of `tan(fov/2)` makes the code's resize
distance equal `fitDistance × 0.9` at every aspect ratio — the code
returns `25` at both aspect `6/5` and aspect `8/5`, while the cover-fit
formula takes different values there (the width branch is smaller at
`8/5`, the height branch at `6/5`). -/
theorem adjustCamera_not_coverFit :
    ¬ ∃ T : ℝ, 0 < T ∧ ∀ a : ℚ, 0 < a →
      ((adjustCameraDistance a : ℚ) : ℝ) = specCoverDistance T (a : ℝ) := by
  rintro ⟨T, hT, h⟩
  have h1 := h (6/5) (by norm_num)
  have h2 := h (8/5) (by norm_num)
  have e1 : adjustCameraDistance (6/5) = 25 := by
    unfold adjustCameraDistance
    norm_num
  have e2 : adjustCameraDistance (8/5) = 25 := by
    unfold adjustCameraDistance
    norm_num
  rw [e1] at h1
  rw [e2] at h2
  unfold specCoverDistance at h1 h2
  push_cast at h1 h2
  have hT2 : (0 : ℝ) < 2 * T := by linarith
  have hmin1 : min (50 / (2 * T)) (64 / (2 * T * ((6:ℝ)/5))) = 50 / (2 * T) := by
    apply min_eq_left
    rw [div_le_div_iff₀ hT2 (by positivity)]
    nlinarith
  have hmin2 : min (50 / (2 * T)) (64 / (2 * T * ((8:ℝ)/5))) = 64 / (2 * T * ((8:ℝ)/5)) := by
    apply min_eq_right
    rw [div_le_div_iff₀ (by positivity) hT2]
    nlinarith
  rw [hmin1] at h1
  rw [hmin2] at h2
  have hne : (2 * T) ≠ 0 := ne_of_gt hT2
  field_simp at h1 h2
  nlinarith

/-- C1 amended: the resize camera distance is the breakpoint step function
of the aspect ratio — `40` below `0.7`, `35` on `[0.7, 1)`, `25` from `1`
up (hence also at aspect `1.6`) — and it is antitone in the aspect. -/
theorem adjustCamera_stepFunction (a b : ℚ) (hab : a ≤ b) :
    adjustCameraDistance b ≤ adjustCameraDistance a ∧
    (a < 7/10 → adjustCameraDistance a = 40) ∧
    (7/10 ≤ a → a < 1 → adjustCameraDistance a = 35) ∧
    (1 ≤ a → adjustCameraDistance a = 25) := by
  have h07 : (0.7 : ℚ) = 7 / 10 := by norm_num
  unfold adjustCameraDistance
  refine ⟨?_, ?_, ?_, ?_⟩
  · rw [h07]
    split_ifs <;> linarith
  · intro hc
    rw [if_pos (show a < 0.7 by rw [h07]; exact hc)]
  · intro hc1 hc2
    rw [if_neg (show ¬ a < 0.7 by rw [h07]; exact not_lt.mpr hc1), if_pos hc2]
  · intro hc
    rw [if_neg (show ¬ a < 0.7 by rw [h07]; intro hlt; linarith),
      if_neg (not_lt.mpr hc)]

/-- Witness for C1's amended step function at aspects `8/5` and `2`. -/
theorem adjustCamera_stepFunction_witness :
    adjustCameraDistance (8/5) = 25 ∧ adjustCameraDistance 2 ≤ adjustCameraDistance (8/5) :=
  ⟨(adjustCamera_stepFunction (8/5) 2 (by norm_num)).2.2.2 (by norm_num),
   (adjustCamera_stepFunction (8/5) 2 (by norm_num)).1⟩

lemma themesLookup_mem (n : String) (hn : n ∈ themeKeys) :
    ∃ t, themesLookup n = some t ∧ t ∈ themeValues := by
  fin_cases hn
  · exact ⟨⟨0.6, 0.7, 0.5⟩, by simp [themesLookup], by simp [themeValues]⟩
  · exact ⟨⟨0.4, 1.0, 0.5⟩, by simp [themesLookup], by simp [themeValues]⟩
  · exact ⟨⟨0.05, 0.9, 0.5⟩, by simp [themesLookup], by simp [themeValues]⟩
  · exact ⟨⟨0.55, 0.8, 0.5⟩, by simp [themesLookup], by simp [themeValues]⟩
  · exact ⟨⟨0.33, 1.0, 0.5⟩, by simp [themesLookup], by simp [themeValues]⟩

lemma changeTheme_foldl (names : List String) (cur : Option Theme)
    (hcur : ∃ t, cur = some t ∧ t ∈ themeValues)
    (hnames : ∀ n ∈ names, n ∈ themeKeys) :
    ∃ t, names.foldl (fun acc n => changeTheme n acc) cur = some t ∧ t ∈ themeValues := by
  induction names generalizing cur with
  | nil => exact hcur
  | cons n ns ih =>
      refine ih (changeTheme n cur) ?_ (fun m hm => hnames m (by simp [hm]))
      simpa [changeTheme] using themesLookup_mem n (hnames n (by simp))

/-- C10: the theme lookup is `none` exactly outside the five enumerated
keys; a face-locked sampler tick with an undefined active theme fails
(the read `currentTheme.h` throws), while with a defined theme it
succeeds; and any sequence of `changeTheme` calls restricted to the five
keys keeps the active theme equal to one of the five predefined entries,
so the failure branch is unreachable. -/
theorem themeLookup_safety (name : String) (names : List String)
    (frame : ℕ → ℚ × ℚ × ℚ) (st : ParticleState)
    (hname : name ∉ themeKeys) (hnames : ∀ n ∈ names, n ∈ themeKeys) :
    themesLookup name = none ∧
    updateParticlesFromVideo true 4 (themesLookup name) frame st = Except.error () ∧
    (∃ t, names.foldl (fun acc n => changeTheme n acc) (themesLookup "cosmic") = some t ∧
      t ∈ themeValues) ∧
    (∀ t, updateParticlesFromVideo true 4 (some t) frame st =
      Except.ok (samplerApply t frame st)) := by
  have hnone : themesLookup name = none := by
    simp only [themeKeys, List.mem_cons, List.mem_singleton] at hname
    push_neg at hname
    unfold themesLookup
    rw [if_neg hname.1, if_neg hname.2.1, if_neg hname.2.2.1, if_neg hname.2.2.2.1,
      if_neg hname.2.2.2.2.1]
  refine ⟨hnone, ?_, ?_, ?_⟩
  · rw [hnone]
    unfold updateParticlesFromVideo
    norm_num
  · exact changeTheme_foldl names _
      ⟨⟨0.6, 0.7, 0.5⟩, by simp [themesLookup], by simp [themeValues]⟩ hnames
  · intro t
    unfold updateParticlesFromVideo
    norm_num

/-- Witness for C10 at the unknown key `"plasma"` and the valid call
sequence `["matrix", "neon"]`. -/
theorem themeLookup_safety_witness :
    themesLookup "plasma" = none ∧
    updateParticlesFromVideo true 4 (themesLookup "plasma") (fun _ => (0, 0, 0)) zeroState =
      Except.error () ∧
    (∃ t, ["matrix", "neon"].foldl (fun acc n => changeTheme n acc) (themesLookup "cosmic") =
      some t ∧ t ∈ themeValues) ∧
    (∀ t, updateParticlesFromVideo true 4 (some t) (fun _ => (0, 0, 0)) zeroState =
      Except.ok (samplerApply t (fun _ => (0, 0, 0)) zeroState)) :=
  themeLookup_safety "plasma" ["matrix", "neon"] (fun _ => (0, 0, 0)) zeroState
    (by decide) (by decide)

/-- Channels of a sampled pixel all lie in `[0,1]`. -/
def chanIn01 (p : ℚ × ℚ × ℚ) : Prop :=
  0 ≤ p.1 ∧ p.1 ≤ 1 ∧ 0 ≤ p.2.1 ∧ p.2.1 ≤ 1 ∧ 0 ≤ p.2.2 ∧ p.2.2 ≤ 1

lemma blend_mem (tc br raw : ℚ) (htc0 : 0 ≤ tc) (htc1 : tc ≤ 1) (hbr0 : 0 ≤ br)
    (hbr1 : br ≤ 1) (hraw0 : 0 ≤ raw) (hraw1 : raw ≤ 1) :
    0 ≤ tc * br + raw * 0.2 ∧ tc * br + raw * 0.2 ≤ 6 / 5 := by
  have h02 : (0.2 : ℚ) = 1 / 5 := by norm_num
  rw [h02]
  constructor <;> nlinarith

lemma themeColor_cosmic : setHSL 0.6 0.7 0.5 = (3/20, 43/100, 17/20) := by
  norm_num [setHSL, hue2rgb, clamp01, euclidMod1]

lemma themeColor_neon : setHSL 0.4 1.0 0.5 = (0, 1, 2/5) := by
  norm_num [setHSL, hue2rgb, clamp01, euclidMod1]

lemma themeColor_sunset : setHSL 0.05 0.9 0.5 = (19/20, 8/25, 1/20) := by
  norm_num [setHSL, hue2rgb, clamp01, euclidMod1]

lemma themeColor_ocean : setHSL 0.55 0.8 0.5 = (1/10, 33/50, 9/10) := by
  norm_num [setHSL, hue2rgb, clamp01, euclidMod1]

lemma themeColor_matrix : setHSL 0.33 1.0 0.5 = (1/50, 1, 0) := by
  norm_num [setHSL, hue2rgb, clamp01, euclidMod1]

lemma samplerApply_colors (th : Theme) (frame : ℕ → ℚ × ℚ × ℚ) (st : ParticleState)
    (i : ℕ) (hi : i < particleCount) :
    (samplerApply th frame st).colors i =
      ((setHSL th.h th.s th.l).1 *
          brightness (frame i).1 (frame i).2.1 (frame i).2.2 + (frame i).1 * 0.2,
       (setHSL th.h th.s th.l).2.1 *
          brightness (frame i).1 (frame i).2.1 (frame i).2.2 + (frame i).2.1 * 0.2,
       (setHSL th.h th.s th.l).2.2 *
          brightness (frame i).1 (frame i).2.1 (frame i).2.2 + (frame i).2.2 * 0.2) := by
  simp only [samplerApply]
  rw [if_pos hi]

lemma themeColor_mem01 (th : Theme) (hth : th ∈ themeValues) :
    chanIn01 (setHSL th.h th.s th.l) := by
  fin_cases hth <;> norm_num [chanIn01, setHSL, hue2rgb, clamp01, euclidMod1]

/-- C3 fails: with the `neon` theme and an all-white input pixel
(raw channels `(1,1,1)`, all in `[0,1]`), the green component written by
the color update is `1·1 + 1·0.2 = 6/5 > 1`. -/
theorem blendedColor_exceeds_one :
    themesLookup "neon" = some ⟨0.4, 1.0, 0.5⟩ ∧
    chanIn01 (1, 1, 1) ∧
    ((samplerApply ⟨0.4, 1.0, 0.5⟩ (fun _ => (1, 1, 1)) zeroState).colors 0).2.1 = 6/5 ∧
    ¬ ((samplerApply ⟨0.4, 1.0, 0.5⟩ (fun _ => (1, 1, 1)) zeroState).colors 0).2.1 ≤ 1 := by
  refine ⟨by simp [themesLookup], by norm_num [chanIn01], ?_, ?_⟩ <;>
    · rw [samplerApply_colors _ _ _ 0 (by norm_num [particleCount, gridCols, gridRows])]
      norm_num [brightness, setHSL, hue2rgb, clamp01, euclidMod1]

/-- C3 amended: for every one of the five themes and every input frame
whose raw channels lie in `[0,1]`, each color component written by the
face-locked update lies in `[0, 6/5]` (the upper bound `1.2`, attained at
a white pixel under a theme with a unit RGB component, replaces the
claimed bound `1`). -/
theorem blendedColor_bounded (th : Theme) (hth : th ∈ themeValues)
    (frame : ℕ → ℚ × ℚ × ℚ) (hframe : ∀ j, chanIn01 (frame j))
    (st : ParticleState) (i : ℕ) (hi : i < particleCount) :
    0 ≤ ((samplerApply th frame st).colors i).1 ∧
      ((samplerApply th frame st).colors i).1 ≤ 6/5 ∧
    0 ≤ ((samplerApply th frame st).colors i).2.1 ∧
      ((samplerApply th frame st).colors i).2.1 ≤ 6/5 ∧
    0 ≤ ((samplerApply th frame st).colors i).2.2 ∧
      ((samplerApply th frame st).colors i).2.2 ≤ 6/5 := by
  obtain ⟨hr0, hr1, hg0, hg1, hb0, hb1⟩ := hframe i
  obtain ⟨htr0, htr1, htg0, htg1, htb0, htb1⟩ := themeColor_mem01 th hth
  obtain ⟨hbr0, hbr1⟩ := brightness_mem01 _ _ _ hr0 hr1 hg0 hg1 hb0 hb1
  rw [samplerApply_colors th frame st i hi]
  obtain ⟨c1, c2⟩ := blend_mem _ _ _ htr0 htr1 hbr0 hbr1 hr0 hr1
  obtain ⟨c3, c4⟩ := blend_mem _ _ _ htg0 htg1 hbr0 hbr1 hg0 hg1
  obtain ⟨c5, c6⟩ := blend_mem _ _ _ htb0 htb1 hbr0 hbr1 hb0 hb1
  exact ⟨c1, c2, c3, c4, c5, c6⟩

/-- Witness for C3's amended bound: the `cosmic` theme, a pure-red pixel,
particle index `3`. -/
theorem blendedColor_bounded_witness :
    0 ≤ ((samplerApply ⟨0.6, 0.7, 0.5⟩ (fun _ => (1, 0, 0)) zeroState).colors 3).1 ∧
      ((samplerApply ⟨0.6, 0.7, 0.5⟩ (fun _ => (1, 0, 0)) zeroState).colors 3).1 ≤ 6/5 ∧
    0 ≤ ((samplerApply ⟨0.6, 0.7, 0.5⟩ (fun _ => (1, 0, 0)) zeroState).colors 3).2.1 ∧
      ((samplerApply ⟨0.6, 0.7, 0.5⟩ (fun _ => (1, 0, 0)) zeroState).colors 3).2.1 ≤ 6/5 ∧
    0 ≤ ((samplerApply ⟨0.6, 0.7, 0.5⟩ (fun _ => (1, 0, 0)) zeroState).colors 3).2.2 ∧
      ((samplerApply ⟨0.6, 0.7, 0.5⟩ (fun _ => (1, 0, 0)) zeroState).colors 3).2.2 ≤ 6/5 :=
  blendedColor_bounded ⟨0.6, 0.7, 0.5⟩ (by simp [themeValues]) (fun _ => (1, 0, 0))
    (fun _ => by norm_num [chanIn01]) zeroState 3
    (by norm_num [particleCount, gridCols, gridRows])

end Viewer
